import Mathlib

/-!
Verification of the rastion-hub artifact registry and authentication core.

This file gives a shallow embedding, in Lean 4, of the registry engine and
the dual-mode authentication code of the repository (src/api/main.py,
src/api/auth.py, src/api/models.py) and proves the specified properties
about it.

Modelling conventions:
- Python strings are Lean `String`s; the string helpers used by the code
  (`str.lower`, `str.strip`, `int(...)`, `in` substring tests, `pathlib`
  suffix extraction) are re-implemented structurally so the kernel can
  evaluate them.
- The SQLAlchemy session plus the blob filesystem are modelled as an
  explicit `RegState` record; pending (uncommitted) inserts never appear
  in the state, so a rollback simply returns to the pre-transaction state,
  which is exactly the visible semantics of `db.rollback()`.
- JSON values are the inductive `JsonVal`; the stdlib `json.loads` is an
  external collaborator and is passed in as an oracle
  `loads : String → Option JsonVal` (`none` models a JSONDecodeError).
- JWTs (python-jose) are modelled as records carrying their claims and the
  secret used for signing; decoding with the right secret before the
  expiry instant succeeds, anything else fails, which is the observable
  contract of HS256 encode/decode with default options (leeway 0:
  a token is rejected exactly when `exp < now`).
- HTTP errors are `HTTPError` records carrying the numeric status code and
  detail string of the corresponding `HTTPException`.
-/

namespace RastionHub

/-! ### Python string primitives -/

/-- Character-level lowering, matching `str.lower` on the ASCII inputs used
by the code. -/
def strLower (s : String) : String := String.mk (s.toList.map Char.toLower)

/-- Whitespace trimming on a character list (both ends), matching `str.strip()`. -/
def trimList (cs : List Char) : List Char :=
  ((cs.dropWhile Char.isWhitespace).reverse.dropWhile Char.isWhitespace).reverse

/-- Python `str.strip()` (no arguments): whitespace removed from both ends. -/
def pyStrip (s : String) : String := String.mk (trimList s.toList)

/-- Does `hay` start with `tok`? Helper for the substring test. -/
def listStarts : List Char → List Char → Bool
  | _, [] => true
  | [], _ :: _ => false
  | h :: hs, t :: ts => h == t && listStarts hs ts

/-- Substring occurrence on character lists, matching Python `tok in hay`. -/
def listHasSub : List Char → List Char → Bool
  | [], tok => tok.isEmpty
  | c :: rest, tok => listStarts (c :: rest) tok || listHasSub rest tok

/-- Python `tok in hay` for strings. -/
def strContains (hay tok : String) : Bool := listHasSub hay.toList tok.toList

/-- Digit-list value; `none` unless the list is nonempty and all digits. -/
def decValue (cs : List Char) : Option Nat :=
  if cs ≠ [] ∧ cs.all Char.isDigit then
    some (cs.foldl (fun a c => a * 10 + (c.toNat - 48)) 0)
  else none

/-- Python `int(s)` on decimal strings: strips whitespace, then an optional
sign followed by digits (digit-group underscores are not modelled; they
never occur in the subjects produced by `str(user.id)`). -/
def pyInt (s : String) : Option Int :=
  match trimList s.toList with
  | '-' :: rest => (decValue rest).map (fun n => -(n : Int))
  | '+' :: rest => (decValue rest).map (fun n => (n : Int))
  | rest => (decValue rest).map (fun n => (n : Int))

/-- The extension of the last path component, matching
`pathlib.PurePath(fn).suffix`: the part of the final name from its last dot
on, empty when the dot is leading (hidden file) or trailing or absent. -/
def pathSuffix (fn : String) : String :=
  let name := (fn.toList.reverse.takeWhile (· != '/')).reverse
  let n := name.length
  match name.reverse.findIdx? (· == '.') with
  | none => ""
  | some j =>
    let i := n - 1 - j
    if 0 < i ∧ i < n - 1 then String.mk (name.drop i) else ""

/-! ### JSON values and Python truthiness -/

/-- Parsed JSON values, the possible results of `json.loads` and of the
identity provider's response bodies. -/
inductive JsonVal where
  | null
  | bool (b : Bool)
  | num (n : Int)
  | str (s : String)
  | arr (elems : List JsonVal)
  | obj (fields : List (String × JsonVal))

/-- A parsed JSON object, i.e. a Python dict as used for manifests and
upstream profiles. -/
abbrev JsonDict := List (String × JsonVal)

/-- Python truthiness of a JSON value. -/
def pyTruthy : JsonVal → Bool
  | .null => false
  | .bool b => b
  | .num n => n != 0
  | .str s => s != ""
  | .arr elems => !elems.isEmpty
  | .obj fields => !fields.isEmpty

/-- Python `str(...)` of a JSON value. Containers are abbreviated — the code
under verification only ever applies this to strings (or to the upstream
numeric `id`), never to containers. -/
def pyStr : JsonVal → String
  | .null => "None"
  | .bool true => "True"
  | .bool false => "False"
  | .num n => toString n
  | .str s => s
  | .arr _ => "<list>"
  | .obj _ => "<dict>"

/-- Python `d.get(k)`: the first binding of `k`, `none` when absent. -/
def dictGet (d : JsonDict) (k : String) : Option JsonVal :=
  (d.find? (fun kv => kv.1 == k)).map (·.2)

/-- Python `d.get(k, v)`: lookup with a default. -/
def dictGetD (d : JsonDict) (k : String) (v : JsonVal) : JsonVal :=
  (dictGet d k).getD v

/-- The fields of a JSON object, `none` for any other JSON value. -/
def objFields : JsonVal → Option JsonDict
  | .obj fields => some fields
  | _ => none

/-! ### Helpers of src/api/main.py -/

/-- Characters kept verbatim by `SAFE_NAME_RE = [^a-zA-Z0-9._-]+` in
src/api/main.py line 42. -/
def isSafeChar (c : Char) : Bool :=
  c.isAlpha || c.isDigit || c == '.' || c == '_' || c == '-'

/-- Replace each maximal run of unsafe characters by a single dash, the
effect of `SAFE_NAME_RE.sub("-", ...)`. The flag records whether the
previous character was part of an unsafe run. -/
def collapseUnsafe : Bool → List Char → List Char
  | _, [] => []
  | prevBad, c :: rest =>
    if isSafeChar c then c :: collapseUnsafe false rest
    else if prevBad then collapseUnsafe true rest
    else '-' :: collapseUnsafe true rest

/-- Python `s.strip("-.")`: dashes and dots removed from both ends. -/
def stripDashDot (cs : List Char) : List Char :=
  let bad : Char → Bool := fun c => c == '-' || c == '.'
  ((cs.dropWhile bad).reverse.dropWhile bad).reverse

/-- src/api/main.py `sanitize_name` (lines 200-202). -/
def sanitize_name (raw : String) : String :=
  let cleaned := String.mk (stripDashDot (collapseUnsafe false (trimList raw.toList)))
  if cleaned = "" then "item" else cleaned

/-- src/api/main.py `normalize_optional_text` (lines 205-209). -/
def normalize_optional_text : Option String → Option String
  | none => none
  | some v =>
    let cleaned := pyStrip v
    if cleaned = "" then none else some cleaned

/-- src/api/main.py `parse_manifest` (lines 212-220). `loads` is the
`json.loads` oracle; `none` models a `JSONDecodeError`. -/
def parse_manifest (loads : String → Option JsonVal) (manifest : Option String) : JsonDict :=
  let raw := pyStrip (manifest.getD "")
  if raw = "" then []
  else
    match loads raw with
    | none => []
    | some parsed =>
      match objFields parsed with
      | some fields => fields
      | none => []

/-- src/api/main.py `PROBLEM_CATEGORY_RULES` (lines 44-61), in source order. -/
def PROBLEM_CATEGORY_RULES : List (String × String) :=
  [("calendar", "Scheduling"),
   ("schedule", "Scheduling"),
   ("planner", "Scheduling"),
   ("planning", "Scheduling"),
   ("timetable", "Scheduling"),
   ("workload", "Scheduling"),
   ("knapsack", "Combinatorial"),
   ("set_cover", "Combinatorial"),
   ("packing", "Combinatorial"),
   ("maxcut", "Graph"),
   ("graph", "Graph"),
   ("portfolio", "Portfolio"),
   ("tsp", "Routing"),
   ("route", "Routing"),
   ("vehicle", "Routing"),
   ("facility", "Routing")]

/-- src/api/main.py `SOLVER_CATEGORY_RULES` (lines 63-78), in source order. -/
def SOLVER_CATEGORY_RULES : List (String × String) :=
  [("qubo", "QUBO"),
   ("qaoa", "Quantum"),
   ("quantum", "Quantum"),
   ("neal", "QUBO"),
   ("tabu", "Heuristic"),
   ("grasp", "Heuristic"),
   ("heuristic", "Heuristic"),
   ("baseline", "Heuristic"),
   ("highs", "MILP"),
   ("ortools", "MILP"),
   ("scip", "MILP"),
   ("mip", "MILP"),
   ("milp", "MILP"),
   ("qp", "QP")]

/-- The rule table selected on src/api/main.py line 242:
`PROBLEM_CATEGORY_RULES if item_type == "problem" else SOLVER_CATEGORY_RULES`. -/
def ruleTable (item_type : String) : List (String × String) :=
  if item_type = "problem" then PROBLEM_CATEGORY_RULES else SOLVER_CATEGORY_RULES

/-- Reading of a manifest field as done on src/api/main.py lines 226 and 231:
`normalize_optional_text(str(payload.get(key, "") or ""))`. -/
def manifestText (payload : JsonDict) (key : String) : Option String :=
  let v := dictGetD payload key (.str "")
  normalize_optional_text (some (if pyTruthy v then pyStr v else ""))

/-- Step (1) of `infer_category`: the explicit manifest `category`
(src/api/main.py lines 226-228). -/
def explicitCategoryOf (payload : JsonDict) : Option String :=
  manifestText payload "category"

/-- Step (2) of `infer_category`: the problem-only `optimization_class`
mapping (src/api/main.py lines 231-239). Falls through (`none`) when the
hint is blank or not in the fixed table. -/
def optClassCategory (payload : JsonDict) : Option String :=
  match manifestText payload "optimization_class" with
  | none => none
  | some oc =>
    let lowered := strLower oc
    if lowered = "milp" ∨ lowered = "mip" then some "Scheduling"
    else if lowered = "qubo" then some "Graph"
    else if lowered = "qp" then some "Portfolio"
    else none

/-- Step (3) of `infer_category`: the first rule whose token occurs in the
haystack (src/api/main.py lines 243-245). -/
def keywordScan (rules : List (String × String)) (haystack : String) : Option String :=
  rules.findSome? (fun rule => if strContains haystack rule.1 then some rule.2 else none)

/-- src/api/main.py `infer_category` (lines 223-247). -/
def infer_category (item_type name description : String)
    (manifest : Option JsonDict) : String :=
  let payload := manifest.getD []
  match explicitCategoryOf payload with
  | some c => c
  | none =>
    match (if item_type = "problem" then optClassCategory payload else none) with
    | some c => c
    | none =>
      let haystack := strLower (name ++ " " ++ description)
      match keywordScan (ruleTable item_type) haystack with
      | some c => c
      | none => "General"

/-- src/api/main.py `build_archive_path` (lines 276-278), with all paths
expressed relative to `APP_DIR` (which is also how `file_path` is stored on
version rows, via `relative_to(APP_DIR)`). -/
def build_archive_path (item_type : String) (user_id : Int) (name version : String) : String :=
  let base := if item_type = "problems" then "storage/problems" else "storage/solvers"
  base ++ "/" ++ toString user_id ++ "/" ++ sanitize_name name ++ "/" ++
    sanitize_name version ++ ".zip"

/-! ### Errors and data model -/

/-- A FastAPI `HTTPException`: numeric status code plus detail string. -/
structure HTTPError where
  statusCode : Nat
  detail : String
deriving DecidableEq

/-- Result errors of a registry operation: either an `HTTPException`, or a
re-raised non-HTTP exception (the bare `raise` on the Create rollback path). -/
inductive ApiErr where
  | http (e : HTTPError)
  | exn
deriving DecidableEq

/-- A row of the `problems` or `solvers` table (src/api/models.py; the two
kinds have identical shape, each kind keeps its own list in `RegState`). -/
structure ArtifactRow where
  id : Int
  owner_id : Int
  name : String
  version : String
  description : String
  category : Option String
  download_count : Nat
  rating : ℚ
  rating_count : Nat
deriving DecidableEq

/-- A row of `problem_versions` / `solver_versions` (src/api/models.py);
`parent_id` is `problem_id` resp. `solver_id`, `file_path` is relative to
`APP_DIR`. -/
structure VersionRow where
  parent_id : Int
  version : String
  description : String
  file_path : String
  created_at : Int
deriving DecidableEq

/-- The committed metadata store plus the blob filesystem. `fs` is the set
(duplicate-free by construction) of blob paths relative to `APP_DIR` that
exist on disk. Pending transaction state never appears here: inserts become
visible only at commit, so a rollback is a no-op on the record. -/
structure RegState where
  problems : List ArtifactRow
  solvers : List ArtifactRow
  problemVersions : List VersionRow
  solverVersions : List VersionRow
  fs : List String
  nextProblemId : Int
  nextSolverId : Int
deriving DecidableEq

/-- Writing a blob (`persist_upload`): creates the file, overwriting any
previous file at the same path. -/
def insertPath (fs : List String) (p : String) : List String :=
  if fs.contains p then fs else p :: fs

/-- src/api/main.py `remove_file_if_exists` (lines 304-306) applied to a
filesystem set. -/
def removePath (fs : List String) (p : String) : List String :=
  fs.filter (fun q => q != p)

/-- The duplicate check of Create (src/api/main.py lines 522-530 and
707-715): first row of the kind with the same (owner, name, version). -/
def findExisting (rows : List ArtifactRow) (uid : Int) (name version : String) :
    Option ArtifactRow :=
  rows.find? (fun p => p.owner_id == uid && p.name == name && p.version == version)

/-- Lookup by primary key, `db.query(...).filter(Model.id == item_id).first()`. -/
def findById (rows : List ArtifactRow) (item_id : Int) : Option ArtifactRow :=
  rows.find? (fun p => p.id == item_id)

/-- Failure-injection points inside Create's try block, after the blob has
been written (src/api/main.py lines 548-566 / 733-751): the `db.add` of the
artifact, the `db.flush`, the `db.add` of the version record, or the final
`db.commit`. -/
inductive FailStep where
  | artifactInsert
  | flushStep
  | versionInsert
  | commitStep
deriving DecidableEq

/-- src/api/main.py `ensure_zip` (lines 281-287) as a predicate on the
uploaded filename: `Path(filename).suffix.lower() != ".zip"` means reject. -/
def rejectedByEnsureZip (filename : String) : Bool :=
  strLower (pathSuffix filename) != ".zip"

/-- src/api/main.py `upload_problem` (lines 502-574). `loads` is the
`json.loads` oracle, `now` the wall clock used for `datetime.utcnow()`,
`fail` an injected failure inside the try block (`none` = run to
completion). Every injected failure point sits after the blob write and
before the commit has returned, so each one rolls the pending transaction
back, deletes the just-written blob and re-raises (`ApiErr.exn`). -/
def upload_problem (loads : String → Option JsonVal) (now : Int) (st : RegState)
    (uid : Int) (name version description : String) (category : Option String)
    (manifest : Option String) (filename : String) (fail : Option FailStep) :
    RegState × Except ApiErr ArtifactRow :=
  let manifest_payload := parse_manifest loads manifest
  let normalized_category :=
    (normalize_optional_text category).getD
      (infer_category "problem" name description (some manifest_payload))
  if rejectedByEnsureZip filename then
    (st, .error (.http ⟨400, "Uploaded file must be a .zip archive."⟩))
  else if (findExisting st.problems uid name version).isSome then
    (st, .error (.http ⟨409,
      "Benchmark with this name and version already exists for this user."⟩))
  else
    let archive_path := build_archive_path "problems" uid name version
    let fsWritten := insertPath st.fs archive_path
    match fail with
    | some _ =>
      ({st with fs := removePath fsWritten archive_path}, .error .exn)
    | none =>
      let pid := st.nextProblemId
      let problem : ArtifactRow :=
        ⟨pid, uid, name, version, description, some normalized_category, 0, 0, 0⟩
      let version_record : VersionRow := ⟨pid, version, description, archive_path, now⟩
      ({st with
          fs := fsWritten,
          problems := st.problems ++ [problem],
          problemVersions := st.problemVersions ++ [version_record],
          nextProblemId := pid + 1},
       .ok problem)

/-- src/api/main.py `upload_solver` (lines 687-759), the solver twin of
`upload_problem`. -/
def upload_solver (loads : String → Option JsonVal) (now : Int) (st : RegState)
    (uid : Int) (name version description : String) (category : Option String)
    (manifest : Option String) (filename : String) (fail : Option FailStep) :
    RegState × Except ApiErr ArtifactRow :=
  let manifest_payload := parse_manifest loads manifest
  let normalized_category :=
    (normalize_optional_text category).getD
      (infer_category "solver" name description (some manifest_payload))
  if rejectedByEnsureZip filename then
    (st, .error (.http ⟨400, "Uploaded file must be a .zip archive."⟩))
  else if (findExisting st.solvers uid name version).isSome then
    (st, .error (.http ⟨409,
      "Solver with this name and version already exists for this user."⟩))
  else
    let archive_path := build_archive_path "solvers" uid name version
    let fsWritten := insertPath st.fs archive_path
    match fail with
    | some _ =>
      ({st with fs := removePath fsWritten archive_path}, .error .exn)
    | none =>
      let sid := st.nextSolverId
      let solver : ArtifactRow :=
        ⟨sid, uid, name, version, description, some normalized_category, 0, 0, 0⟩
      let version_record : VersionRow := ⟨sid, version, description, archive_path, now⟩
      ({st with
          fs := fsWritten,
          solvers := st.solvers ++ [solver],
          solverVersions := st.solverVersions ++ [version_record],
          nextSolverId := sid + 1},
       .ok solver)

/-- Result of `order_by(created_at.desc()).first()` over a filtered list:
the (first, on ties) row with maximal `created_at`. -/
def pickLatest (l : List VersionRow) : Option VersionRow :=
  l.foldl
    (fun acc v =>
      match acc with
      | none => some v
      | some a => if a.created_at < v.created_at then some v else some a)
    none

/-- src/api/main.py `archive_path_from_record` (lines 297-301): `none` for a
falsy record path or a path that does not exist on disk. -/
def archive_path_from_record (fs : List String) (record_path : Option String) :
    Option String :=
  match record_path with
  | none => none
  | some p => if p = "" then none else if fs.contains p then some p else none

/-- The archive path a download resolves for an artifact row: the version
record matching the current version label, else the deterministic fallback
(src/api/main.py lines 596-608 / 781-793). -/
def resolvedArchivePath (item_type : String) (versions : List VersionRow)
    (fs : List String) (a : ArtifactRow) : String :=
  let version_record :=
    pickLatest (versions.filter (fun v => v.parent_id == a.id && v.version == a.version))
  (archive_path_from_record fs (version_record.map (·.file_path))).getD
    (build_archive_path item_type a.owner_id a.name a.version)

/-- The streamed response of a download: the resolved blob path and the
attachment filename. -/
structure FileResp where
  path : String
  filename : String
deriving DecidableEq

/-- src/api/main.py `download_problem` (lines 590-618). -/
def download_problem (st : RegState) (problem_id : Int) :
    RegState × Except ApiErr FileResp :=
  match findById st.problems problem_id with
  | none => (st, .error (.http ⟨404, "Benchmark not found."⟩))
  | some problem =>
    let archive_path := resolvedArchivePath "problems" st.problemVersions st.fs problem
    if st.fs.contains archive_path then
      let st' := {st with problems := st.problems.map (fun q =>
        if q.id == problem.id then {q with download_count := q.download_count + 1} else q)}
      (st', .ok ⟨archive_path,
        sanitize_name problem.name ++ "-" ++ sanitize_name problem.version ++ ".zip"⟩)
    else
      (st, .error (.http ⟨404, "Archive not found."⟩))

/-- src/api/main.py `download_solver` (lines 775-803). -/
def download_solver (st : RegState) (solver_id : Int) :
    RegState × Except ApiErr FileResp :=
  match findById st.solvers solver_id with
  | none => (st, .error (.http ⟨404, "Solver not found."⟩))
  | some solver =>
    let archive_path := resolvedArchivePath "solvers" st.solverVersions st.fs solver
    if st.fs.contains archive_path then
      let st' := {st with solvers := st.solvers.map (fun q =>
        if q.id == solver.id then {q with download_count := q.download_count + 1} else q)}
      (st', .ok ⟨archive_path,
        sanitize_name solver.name ++ "-" ++ sanitize_name solver.version ++ ".zip"⟩)
    else
      (st, .error (.http ⟨404, "Archive not found."⟩))

/-- The body of the `RateResponse` (src/api/main.py lines 171-175 and
875-880); `rating` is rounded to four decimals in the response only. -/
structure RateResp where
  id : Int
  item_type : String
  rating : ℚ
  rating_count : Nat
deriving DecidableEq

/-- Rounding to four decimals as in `round(item.rating, 4)`; half-to-even
versus half-up differences are irrelevant to the claims, which are about
the stored (unrounded) average. -/
def roundTo4 (q : ℚ) : ℚ := (Int.floor (q * 10000 + 1/2) : ℚ) / 10000

/-- The rating fold of src/api/main.py lines 865-869, applied to one row:
`rating := (rating * rating_count + score) / (rating_count + 1)` and
`rating_count := rating_count + 1` (`or 0` / `or 0.0` only massages NULLs,
which the columns forbid). -/
def applyRating (score : ℚ) (item : ArtifactRow) : ArtifactRow :=
  {item with
    rating := (item.rating * (item.rating_count : ℚ) + score) / ((item.rating_count : ℚ) + 1),
    rating_count := item.rating_count + 1}

/-- src/api/main.py `rate_item` (lines 840-880). `score` is the payload
rating; the `[0, 5]` bound is enforced by the pydantic model before the
handler runs. -/
def rate_item (st : RegState) (item_type : String) (item_id : Int) (score : ℚ) :
    RegState × Except ApiErr RateResp :=
  let normalized := pyStrip (strLower item_type)
  if normalized = "problem" ∨ normalized = "problems" ∨
      normalized = "benchmark" ∨ normalized = "benchmarks" then
    match findById st.problems item_id with
    | none => (st, .error (.http ⟨404, "Item not found."⟩))
    | some item =>
      let item' := applyRating score item
      ({st with problems := st.problems.map (fun q => if q.id == item.id then item' else q)},
       .ok ⟨item.id, "benchmark", roundTo4 item'.rating, item'.rating_count⟩)
  else if normalized = "solver" ∨ normalized = "solvers" then
    match findById st.solvers item_id with
    | none => (st, .error (.http ⟨404, "Item not found."⟩))
    | some item =>
      let item' := applyRating score item
      ({st with solvers := st.solvers.map (fun q => if q.id == item.id then item' else q)},
       .ok ⟨item.id, "solver", roundTo4 item'.rating, item'.rating_count⟩)
  else
    (st, .error (.http ⟨400, "Type must be benchmark/benchmarks or solver/solvers."⟩))

/-! ### src/api/auth.py -/

/-- A row of the `users` table (src/api/models.py lines 14-23). -/
structure UserRow where
  id : Int
  github_id : String
  username : String
  avatar_url : String
deriving DecidableEq

/-- The users table plus its autoincrement counter. -/
structure UserDb where
  rows : List UserRow
  nextId : Int
deriving DecidableEq

/-- src/api/auth.py line 23: `ACCESS_TOKEN_EXPIRE_MINUTES` default. -/
def ACCESS_TOKEN_EXPIRE_MINUTES : Int := 10080

/-- A bearer credential: either an HS256 JWT — modelled by its claims
(`sub` optional, `exp` in epoch seconds) and the secret it was signed
with — or an opaque non-JWT string such as a GitHub access token. -/
inductive Credential where
  | jwtToken (sub : Option String) (exp : Int) (secret : String)
  | rawToken (s : String)
deriving DecidableEq

/-- src/api/auth.py `create_access_token` (lines 30-35): subject plus an
expiry `expires_delta` (seconds) in the future, defaulting to the
configured minute count. -/
def create_access_token (secret : String) (now : Int) (subject : String)
    (expires_delta : Option Int) : Credential :=
  .jwtToken (some subject) (now + expires_delta.getD (ACCESS_TOKEN_EXPIRE_MINUTES * 60)) secret

/-- src/api/auth.py `decode_access_token` (lines 38-42): `jwt.decode`
succeeds exactly when the signature was made with our secret and the token
is not expired (python-jose with zero leeway rejects exactly when
`exp < now`); every failure (`JWTError`) becomes `none`. -/
def decode_access_token (secret : String) (now : Int) :
    Credential → Option (Option String × Int)
  | .jwtToken sub exp tokSecret =>
    if tokSecret = secret ∧ now ≤ exp then some (sub, exp) else none
  | .rawToken _ => none

/-- The database-free part of src/api/auth.py `user_from_jwt`
(lines 170-182): decode, read a truthy `sub` claim, parse it as an int. -/
def token_subject_id (secret : String) (now : Int) (token : Credential) : Option Int :=
  match decode_access_token secret now token with
  | none => none
  | some (sub, _) =>
    match sub with
    | none => none
    | some s => if s = "" then none else pyInt s

/-- src/api/auth.py `user_from_jwt` (lines 170-184). -/
def user_from_jwt (secret : String) (now : Int) (db : UserDb) (token : Credential) :
    Option UserRow :=
  match token_subject_id secret now token with
  | none => none
  | some user_id => db.rows.find? (fun u => u.id == user_id)

/-- The upstream profile-fetch response: HTTP status plus parsed JSON body
(GitHub's `/user` returns an object). -/
structure GhResp where
  status : Nat
  payload : JsonDict

/-- src/api/auth.py `fetch_github_user` (lines 120-141). -/
def fetch_github_user (resp : GhResp) : Except HTTPError JsonDict :=
  if resp.status ≠ 200 then
    .error ⟨401, "Invalid authentication token."⟩
  else if (dictGet resp.payload "id").isNone then
    .error ⟨401, "Unable to load GitHub user profile from token."⟩
  else
    .ok resp.payload

/-- The `str(github_user["id"])` of src/api/auth.py line 145. -/
def githubIdOf (github_user : JsonDict) : String :=
  pyStr (dictGetD github_user "id" .null)

/-- The login handling of src/api/auth.py lines 146-148: `some l` exactly
when `login` is a string with non-blank strip `l` (i.e. `has_login`), in
which case `l` is the resolved username. -/
def loginTrimmed (github_user : JsonDict) : Option String :=
  match dictGet github_user "login" with
  | some (.str s) => if pyStrip s = "" then none else some (pyStrip s)
  | _ => none

/-- The avatar handling of src/api/auth.py line 149:
`github_user.get("avatar_url") or ""`. -/
def avatarValue (github_user : JsonDict) : String :=
  match dictGet github_user "avatar_url" with
  | some v => if pyTruthy v then pyStr v else ""
  | none => ""

/-- src/api/auth.py `upsert_user_from_github` (lines 144-167): create a
user (with the `github-id-<id>` fallback handle) or update one (handle
only when a non-blank login came in, avatar always), then commit. -/
def upsert_user_from_github (db : UserDb) (github_user : JsonDict) : UserDb × UserRow :=
  let github_id := githubIdOf github_user
  let resolved_username := (loginTrimmed github_user).getD ("github-id-" ++ github_id)
  let avatar_url := avatarValue github_user
  match db.rows.find? (fun u => u.github_id == github_id) with
  | none =>
    let user : UserRow := ⟨db.nextId, github_id, resolved_username, avatar_url⟩
    (⟨db.rows ++ [user], db.nextId + 1⟩, user)
  | some user =>
    let user' := {user with
      username := if (loginTrimmed github_user).isSome then resolved_username else user.username,
      avatar_url := avatar_url}
    (⟨db.rows.map (fun u => if u.github_id == github_id then user' else u), db.nextId⟩, user')

/-- src/api/auth.py `authenticate_token` (lines 187-199). The triple is
(resulting users table, outcome, whether the upstream provider was
contacted). The dead `if not user` check after the upsert is omitted:
`upsert_user_from_github` always returns a user. -/
def authenticate_token (secret : String) (now : Int) (db : UserDb) (gh : GhResp)
    (token : Credential) : UserDb × Except HTTPError UserRow × Bool :=
  match user_from_jwt secret now db token with
  | some user => (db, .ok user, false)
  | none =>
    match fetch_github_user gh with
    | .error e => (db, .error e, true)
    | .ok github_user =>
      let r := upsert_user_from_github db github_user
      (r.1, .ok r.2, true)

/-- The token-endpoint response for the OAuth code exchange: HTTP status
plus body, where `none` models a body on which `response.json()` raises. -/
structure OauthResp where
  status : Nat
  body : Option JsonVal

/-- The error detail assembled on src/api/auth.py lines 102-103 and
107-108: `error_description` when it is a non-empty string, else the
constant fallback. -/
def exchange_error_detail (data : JsonVal) : String :=
  match data with
  | .obj fields =>
    match dictGet fields "error_description" with
    | some (.str s) => if s ≠ "" then s else "OAuth exchange failed."
    | _ => "OAuth exchange failed."
  | _ => "OAuth exchange failed."

/-- The truthy-`error`-field test of src/api/auth.py line 106:
`isinstance(data, dict) and data.get("error")`. -/
def reportsError (data : JsonVal) : Bool :=
  match data with
  | .obj fields => pyTruthy (dictGetD fields "error" .null)
  | _ => false

/-- The `access_token` extraction of src/api/auth.py line 111:
`data.get("access_token") if isinstance(data, dict) else None`. -/
def accessTokenField (data : JsonVal) : Option JsonVal :=
  match data with
  | .obj fields => dictGet fields "access_token"
  | _ => none

/-- src/api/auth.py `exchange_oauth_code_for_token` (lines 81-117), as a
function of the provider's response. Status mapping per §7 of the spec:
400 BAD_REQUEST is `OAuthExchangeFailed`, 502 BAD_GATEWAY is
`UpstreamUnavailable`. -/
def exchange_oauth_code_for_token (resp : OauthResp) : Except HTTPError String :=
  match resp.body with
  | none => .error ⟨502, "GitHub token endpoint returned an invalid response."⟩
  | some data =>
    if resp.status ≠ 200 then
      .error ⟨400, exchange_error_detail data⟩
    else if reportsError data then
      .error ⟨400, exchange_error_detail data⟩
    else
      match accessTokenField data with
      | some (.str s) =>
        if pyStrip s = "" then
          .error ⟨502, "GitHub OAuth response did not include an access token."⟩
        else
          .ok (pyStrip s)
      | _ => .error ⟨502, "GitHub OAuth response did not include an access token."⟩

/-! ### Helper lemmas -/

theorem mem_insertPath {fs : List String} {p q : String} :
    q ∈ insertPath fs p ↔ q ∈ fs ∨ q = p := by
  unfold insertPath
  by_cases h : fs.contains p = true
  · have hp : p ∈ fs := by simpa using h
    simp only [h, if_true]
    constructor
    · exact Or.inl
    · rintro (hq | rfl)
      · exact hq
      · exact hp
  · simp only [h]
    simp [List.mem_cons, or_comm]

theorem mem_removePath {fs : List String} {p q : String} :
    q ∈ removePath fs p ↔ q ∈ fs ∧ q ≠ p := by
  unfold removePath
  simp [List.mem_filter]

theorem find?_of_map {α : Type} (p : α → Bool) (u : α → α)
    (hp : ∀ a, p (u a) = p a) :
    ∀ l : List α, (l.map u).find? p = (l.find? p).map u := by
  intro l
  induction l with
  | nil => rfl
  | cons a t ih =>
    simp only [List.map_cons, List.find?_cons, hp]
    cases h : p a <;> simp [h, ih]

/-! ### Claim theorems -/

/-- C6: category inference is total and deterministic (it is a Lean
function) and follows the fixed resolution order on every input: a
non-blank explicit manifest `category` wins outright; otherwise, for
problems only, a non-fall-through `optimization_class` hint decides;
otherwise the first matching token of the kind-specific ordered rule table
in the lower-cased name-plus-description decides, with the constant
default "General" when nothing matches — and with no manifest the classifier
is exactly the keyword scan with default. In particular a problem named
"tsp-routing-v2" with no manifest classifies as "Routing", the category of
the first matching token (`tsp`, which precedes `route`) in table order. -/
theorem c6_infer_category_order :
    (∀ item_type name description payload c,
      explicitCategoryOf payload = some c →
      infer_category item_type name description (some payload) = c) ∧
    (∀ name description payload c,
      explicitCategoryOf payload = none →
      optClassCategory payload = some c →
      infer_category "problem" name description (some payload) = c) ∧
    (∀ item_type name description payload,
      explicitCategoryOf payload = none →
      (item_type = "problem" → optClassCategory payload = none) →
      infer_category item_type name description (some payload) =
        (keywordScan (ruleTable item_type)
          (strLower (name ++ " " ++ description))).getD "General") ∧
    (∀ item_type name description,
      infer_category item_type name description none =
        (keywordScan (ruleTable item_type)
          (strLower (name ++ " " ++ description))).getD "General") ∧
    infer_category "problem" "tsp-routing-v2" "" none = "Routing" ∧
    keywordScan PROBLEM_CATEGORY_RULES (strLower ("tsp-routing-v2" ++ " " ++ "")) =
      some "Routing" := by
  refine ⟨?_, ?_, ?_, ?_, ?_, ?_⟩
  · intro item_type name description payload c h
    simp only [infer_category, Option.getD_some, h]
  · intro name description payload c h1 h2
    simp [infer_category, h1, h2]
  · intro item_type name description payload h1 h2
    by_cases hit : item_type = "problem"
    · subst hit
      simp only [infer_category, Option.getD_some, h1, if_pos rfl, h2 rfl]
      cases hks : keywordScan (ruleTable "problem")
          (strLower (name ++ " " ++ description)) <;> simp [hks]
    · simp only [infer_category, Option.getD_some, h1, if_neg hit]
      cases hks : keywordScan (ruleTable item_type)
          (strLower (name ++ " " ++ description)) <;> simp [hks]
  · intro item_type name description
    have h1 : explicitCategoryOf [] = none := rfl
    have h2 : optClassCategory [] = none := rfl
    by_cases hit : item_type = "problem"
    · subst hit
      simp only [infer_category, Option.getD_none, h1, if_pos rfl, h2]
      cases hks : keywordScan (ruleTable "problem")
          (strLower (name ++ " " ++ description)) <;> simp [hks]
    · simp only [infer_category, Option.getD_none, h1, if_neg hit]
      cases hks : keywordScan (ruleTable item_type)
          (strLower (name ++ " " ++ description)) <;> simp [hks]
  · rfl
  · rfl

/-- Witness for C6: the explicit-category, optimization-class and
keyword-scan branches each evaluated at a concrete input. -/
theorem c6_infer_category_order_witness :
    infer_category "problem" "n" "d" (some [("category", JsonVal.str " Foo ")]) = "Foo" ∧
    infer_category "problem" "n" "d" (some [("optimization_class", JsonVal.str "QUBO")]) =
      "Graph" ∧
    infer_category "solver" "tabu-search" "" (some []) =
      (keywordScan (ruleTable "solver") (strLower ("tabu-search" ++ " " ++ ""))).getD
        "General" :=
  ⟨c6_infer_category_order.1 "problem" "n" "d" [("category", JsonVal.str " Foo ")] "Foo" rfl,
   c6_infer_category_order.2.1 "n" "d" [("optimization_class", JsonVal.str "QUBO")] "Graph"
     rfl rfl,
   c6_infer_category_order.2.2.1 "solver" "tabu-search" "" [] rfl
     (fun h => absurd h (by decide))⟩

/-- C10: an absent, blank, unparseable, or non-object manifest form field is
silently treated as the empty manifest: `parse_manifest` yields the empty
dict, Create raises no error for it, and the whole upload behaves exactly
as if no manifest had been supplied (category inference falls through to
the keyword rules or the default). -/
theorem c10_malformed_manifest_ignored :
    ∀ (loads : String → Option JsonVal) (now : Int) (st : RegState) (uid : Int)
      (name version description : String) (category : Option String)
      (manifest : Option String) (filename : String) (fail : Option FailStep),
      (manifest = none ∨ pyStrip (manifest.getD "") = "" ∨
        loads (pyStrip (manifest.getD "")) = none ∨
        (∃ v, loads (pyStrip (manifest.getD "")) = some v ∧ objFields v = none)) →
      parse_manifest loads manifest = [] ∧
      upload_problem loads now st uid name version description category manifest
          filename fail =
        upload_problem loads now st uid name version description category none
          filename fail ∧
      upload_solver loads now st uid name version description category manifest
          filename fail =
        upload_solver loads now st uid name version description category none
          filename fail := by
  intro loads now st uid name version description category manifest filename fail h
  have hblank : parse_manifest loads none = [] := rfl
  have hpm : parse_manifest loads manifest = [] := by
    rcases h with rfl | hb | hl | ⟨v, hv, hobj⟩
    · rfl
    · simp [parse_manifest, hb]
    · by_cases hb : pyStrip (manifest.getD "") = "" <;>
        simp [parse_manifest, hb, hl]
    · by_cases hb : pyStrip (manifest.getD "") = "" <;>
        simp [parse_manifest, hb, hv, hobj]
  refine ⟨hpm, ?_, ?_⟩
  · simp only [upload_problem, hpm, hblank]
  · simp only [upload_solver, hpm, hblank]

/-- Witness for C10: a manifest field that parses to a JSON array (not an
object) is treated as empty and the upload equals the manifest-free one. -/
theorem c10_malformed_manifest_ignored_witness :
    parse_manifest (fun _ => some (JsonVal.arr [])) (some "[1]") = [] ∧
    upload_problem (fun _ => some (JsonVal.arr [])) 0
        ⟨[], [], [], [], [], 1, 1⟩ 1 "a" "1" "" none (some "[1]") "a.zip" none =
      upload_problem (fun _ => some (JsonVal.arr [])) 0
        ⟨[], [], [], [], [], 1, 1⟩ 1 "a" "1" "" none none "a.zip" none ∧
    upload_solver (fun _ => some (JsonVal.arr [])) 0
        ⟨[], [], [], [], [], 1, 1⟩ 1 "a" "1" "" none (some "[1]") "a.zip" none =
      upload_solver (fun _ => some (JsonVal.arr [])) 0
        ⟨[], [], [], [], [], 1, 1⟩ 1 "a" "1" "" none none "a.zip" none :=
  c10_malformed_manifest_ignored (fun _ => some (JsonVal.arr [])) 0
    ⟨[], [], [], [], [], 1, 1⟩ 1 "a" "1" "" none (some "[1]") "a.zip" none
    (Or.inr (Or.inr (Or.inr ⟨JsonVal.arr [], rfl, rfl⟩)))

/-- C4: session tokens round-trip. For a token issued at `now` with subject
`s` (the decimal form of a user id `u`, i.e. `pyInt s = some u`) and expiry
delta `delta`, verifying it at any instant strictly before the expiry
instant succeeds — the decode returns the full payload and the
database-free subject extraction returns `u` — while verifying at any
instant strictly after the expiry instant fails, for the decode, for the
subject extraction, and for `user_from_jwt` over every database. -/
theorem c4_token_roundtrip :
    (∀ (secret : String) (now : Int) (subject : String) (delta : Option Int) (t : Int),
      t < now + delta.getD (ACCESS_TOKEN_EXPIRE_MINUTES * 60) →
      decode_access_token secret t (create_access_token secret now subject delta) =
        some (some subject, now + delta.getD (ACCESS_TOKEN_EXPIRE_MINUTES * 60))) ∧
    (∀ (secret : String) (now : Int) (s : String) (u : Int) (delta : Option Int) (t : Int),
      pyInt s = some u →
      t < now + delta.getD (ACCESS_TOKEN_EXPIRE_MINUTES * 60) →
      token_subject_id secret t (create_access_token secret now s delta) = some u) ∧
    (∀ (secret : String) (now : Int) (subject : String) (delta : Option Int) (t : Int),
      now + delta.getD (ACCESS_TOKEN_EXPIRE_MINUTES * 60) < t →
      decode_access_token secret t (create_access_token secret now subject delta) = none ∧
      token_subject_id secret t (create_access_token secret now subject delta) = none ∧
      ∀ db : UserDb,
        user_from_jwt secret t db (create_access_token secret now subject delta) = none) := by
  have hdec : ∀ (secret : String) (now : Int) (subject : String) (delta : Option Int)
      (t : Int), t < now + delta.getD (ACCESS_TOKEN_EXPIRE_MINUTES * 60) →
      decode_access_token secret t (create_access_token secret now subject delta) =
        some (some subject, now + delta.getD (ACCESS_TOKEN_EXPIRE_MINUTES * 60)) := by
    intro secret now subject delta t ht
    simp [decode_access_token, create_access_token, le_of_lt ht]
  have hexp : ∀ (secret : String) (now : Int) (subject : String) (delta : Option Int)
      (t : Int), now + delta.getD (ACCESS_TOKEN_EXPIRE_MINUTES * 60) < t →
      decode_access_token secret t (create_access_token secret now subject delta) =
        none := by
    intro secret now subject delta t ht
    simp [decode_access_token, create_access_token, not_le.mpr ht]
  refine ⟨hdec, ?_, ?_⟩
  · intro secret now s u delta t hu ht
    have hs : s ≠ "" := by
      intro hempty
      subst hempty
      exact Option.noConfusion hu
    simp [token_subject_id, hdec secret now s delta t ht, hs, hu]
  · intro secret now subject delta t ht
    have h1 := hexp secret now subject delta t ht
    refine ⟨h1, ?_, ?_⟩
    · simp [token_subject_id, h1]
    · intro db
      simp [user_from_jwt, token_subject_id, h1]

/-- Witness for C4: a token for user id 7 issued at time 0 with the default
one-week expiry verifies at time 60 and is rejected at a time past the
expiry instant. -/
theorem c4_token_roundtrip_witness :
    token_subject_id "secret-key" 60 (create_access_token "secret-key" 0 "7" none) =
      some 7 ∧
    decode_access_token "secret-key" 999999 (create_access_token "secret-key" 0 "7" none) =
      none :=
  ⟨c4_token_roundtrip.2.1 "secret-key" 0 "7" 7 none 60 rfl (by norm_num [ACCESS_TOKEN_EXPIRE_MINUTES]),
   (c4_token_roundtrip.2.2 "secret-key" 0 "7" none 999999 (by norm_num [ACCESS_TOKEN_EXPIRE_MINUTES])).1⟩

/-- C9: reconciliation is asymmetric between handle and avatar. A
first-time signup whose profile has a blank or missing login gets the
fallback handle `github-id-<id>` exactly; a returning user's handle is
overwritten only when a non-blank login comes in (never erased to blank),
while the avatar URL is always overwritten, and to the empty string when
the profile field is absent or falsy. -/
theorem c9_reconcile_asymmetry :
    (∀ (db : UserDb) (gu : JsonDict),
      db.rows.find? (fun u => u.github_id == githubIdOf gu) = none →
      loginTrimmed gu = none →
      (upsert_user_from_github db gu).2.username = "github-id-" ++ githubIdOf gu ∧
      (upsert_user_from_github db gu).2.avatar_url = avatarValue gu ∧
      (upsert_user_from_github db gu).1.rows =
        db.rows ++ [(upsert_user_from_github db gu).2]) ∧
    (∀ (db : UserDb) (gu : JsonDict) (user : UserRow),
      db.rows.find? (fun u => u.github_id == githubIdOf gu) = some user →
      loginTrimmed gu = none →
      (upsert_user_from_github db gu).2.username = user.username ∧
      (upsert_user_from_github db gu).2.avatar_url = avatarValue gu ∧
      (upsert_user_from_github db gu).2.id = user.id) ∧
    (∀ (db : UserDb) (gu : JsonDict) (user : UserRow) (l : String),
      db.rows.find? (fun u => u.github_id == githubIdOf gu) = some user →
      loginTrimmed gu = some l →
      (upsert_user_from_github db gu).2.username = l ∧
      (upsert_user_from_github db gu).2.avatar_url = avatarValue gu ∧
      (upsert_user_from_github db gu).2.id = user.id) ∧
    (∀ gu : JsonDict, dictGet gu "avatar_url" = none → avatarValue gu = "") := by
  refine ⟨?_, ?_, ?_, ?_⟩
  · intro db gu hfind hlogin
    simp [upsert_user_from_github, hfind, hlogin]
  · intro db gu user hfind hlogin
    simp [upsert_user_from_github, hfind, hlogin]
  · intro db gu user l hfind hlogin
    simp [upsert_user_from_github, hfind, hlogin]
  · intro gu h
    simp [avatarValue, h]

/-- Witness for C9: a profile with a blank login — for a fresh database and
for a returning user whose stored handle is non-blank. -/
theorem c9_reconcile_asymmetry_witness :
    (upsert_user_from_github ⟨[], 1⟩
        [("id", JsonVal.num 9), ("login", JsonVal.str " ")]).2.username =
      "github-id-9" ∧
    (upsert_user_from_github
        ⟨[⟨1, "9", "keeper", "old-avatar"⟩], 2⟩
        [("id", JsonVal.num 9), ("login", JsonVal.str " ")]).2.username = "keeper" ∧
    (upsert_user_from_github
        ⟨[⟨1, "9", "keeper", "old-avatar"⟩], 2⟩
        [("id", JsonVal.num 9), ("login", JsonVal.str " ")]).2.avatar_url =
      avatarValue [("id", JsonVal.num 9), ("login", JsonVal.str " ")] :=
  ⟨((c9_reconcile_asymmetry.1 ⟨[], 1⟩
      [("id", JsonVal.num 9), ("login", JsonVal.str " ")] rfl rfl).1),
   ((c9_reconcile_asymmetry.2.1 ⟨[⟨1, "9", "keeper", "old-avatar"⟩], 2⟩
      [("id", JsonVal.num 9), ("login", JsonVal.str " ")] ⟨1, "9", "keeper", "old-avatar"⟩
      rfl rfl).1),
   ((c9_reconcile_asymmetry.2.1 ⟨[⟨1, "9", "keeper", "old-avatar"⟩], 2⟩
      [("id", JsonVal.num 9), ("login", JsonVal.str " ")] ⟨1, "9", "keeper", "old-avatar"⟩
      rfl rfl).2.1)⟩

/-- C8 counterexample: the claim asserts that a provider response lacking
an access token fails with `OAuthExchangeFailed` (the 400 BAD_REQUEST kind
raised for provider-reported errors), but on a parsed, error-free 200
response with no `access_token` field the code raises 502 BAD_GATEWAY — the
`UpstreamUnavailable` kind — not 400. -/
theorem c8_exchange_missing_token_counterexample :
    exchange_oauth_code_for_token ⟨200, some (JsonVal.obj [])⟩ =
      .error ⟨502, "GitHub OAuth response did not include an access token."⟩ ∧
    (502 : Nat) ≠ 400 :=
  ⟨rfl, by decide⟩

/-- C8 (amended): the exchange fails with `OAuthExchangeFailed` (400) when
the provider reports an error — a non-success status, or a truthy `error`
field in the parsed body — and fails with `UpstreamUnavailable` (502) when
the response body cannot be parsed at all or when a parsed, non-error
response lacks a non-blank access-token string; on success it returns the
provider's access token, stripped. -/
theorem c8_exchange_amended :
    (∀ resp : OauthResp, resp.body = none →
      exchange_oauth_code_for_token resp =
        .error ⟨502, "GitHub token endpoint returned an invalid response."⟩) ∧
    (∀ (resp : OauthResp) (data : JsonVal), resp.body = some data → resp.status ≠ 200 →
      exchange_oauth_code_for_token resp = .error ⟨400, exchange_error_detail data⟩) ∧
    (∀ (resp : OauthResp) (data : JsonVal), resp.body = some data → resp.status = 200 →
      reportsError data = true →
      exchange_oauth_code_for_token resp = .error ⟨400, exchange_error_detail data⟩) ∧
    (∀ (resp : OauthResp) (data : JsonVal), resp.body = some data → resp.status = 200 →
      reportsError data = false →
      ((∀ s : String, accessTokenField data = some (.str s) → pyStrip s ≠ "" →
          exchange_oauth_code_for_token resp = .ok (pyStrip s)) ∧
       (∀ s : String, accessTokenField data = some (.str s) → pyStrip s = "" →
          exchange_oauth_code_for_token resp =
            .error ⟨502, "GitHub OAuth response did not include an access token."⟩) ∧
       (accessTokenField data = none →
          exchange_oauth_code_for_token resp =
            .error ⟨502, "GitHub OAuth response did not include an access token."⟩))) := by
  refine ⟨?_, ?_, ?_, ?_⟩
  · intro resp h
    simp [exchange_oauth_code_for_token, h]
  · intro resp data h hs
    simp [exchange_oauth_code_for_token, h, hs]
  · intro resp data h hs herr
    simp [exchange_oauth_code_for_token, h, hs, herr]
  · intro resp data h hs herr
    refine ⟨?_, ?_, ?_⟩
    · intro s htok hblank
      simp [exchange_oauth_code_for_token, h, hs, herr, htok, hblank]
    · intro s htok hblank
      simp [exchange_oauth_code_for_token, h, hs, herr, htok, hblank]
    · intro htok
      simp [exchange_oauth_code_for_token, h, hs, herr, htok]

/-- Witness for C8 (amended): an unparseable body, a provider-reported
error, and a successful exchange, each at a concrete response. -/
theorem c8_exchange_amended_witness :
    exchange_oauth_code_for_token ⟨200, none⟩ =
      .error ⟨502, "GitHub token endpoint returned an invalid response."⟩ ∧
    exchange_oauth_code_for_token
        ⟨200, some (JsonVal.obj [("error", JsonVal.str "bad_verification_code")])⟩ =
      .error ⟨400, exchange_error_detail
        (JsonVal.obj [("error", JsonVal.str "bad_verification_code")])⟩ ∧
    exchange_oauth_code_for_token
        ⟨200, some (JsonVal.obj [("access_token", JsonVal.str " tok ")])⟩ =
      .ok (pyStrip " tok ") :=
  ⟨c8_exchange_amended.1 ⟨200, none⟩ rfl,
   c8_exchange_amended.2.2.1 ⟨200, some (JsonVal.obj
      [("error", JsonVal.str "bad_verification_code")])⟩
     (JsonVal.obj [("error", JsonVal.str "bad_verification_code")]) rfl rfl rfl,
   (c8_exchange_amended.2.2.2 ⟨200, some (JsonVal.obj
      [("access_token", JsonVal.str " tok ")])⟩
     (JsonVal.obj [("access_token", JsonVal.str " tok ")]) rfl rfl rfl).1 " tok " rfl
     (by decide)⟩

/-- C3: `authenticate_token` follows the two-step resolution order. When
the credential decodes as a valid unexpired local session token whose
subject parses to the id of an existing user, that user is returned
without contacting the provider (third component `false`); otherwise the
credential is treated as an upstream access token: a non-success profile
response or one missing the stable `id` fails with 401 Unauthenticated,
and any other profile is reconciled through `upsert_user_from_github` and
the local user returned. -/
theorem c3_resolution_order :
    (∀ (secret : String) (now : Int) (db : UserDb) (token : Credential)
        (s : String) (e : Int) (uid : Int) (user : UserRow),
      decode_access_token secret now token = some (some s, e) →
      pyInt s = some uid →
      db.rows.find? (fun u => u.id == uid) = some user →
      user_from_jwt secret now db token = some user) ∧
    (∀ (secret : String) (now : Int) (db : UserDb) (gh : GhResp) (token : Credential)
        (user : UserRow),
      user_from_jwt secret now db token = some user →
      authenticate_token secret now db gh token = (db, .ok user, false)) ∧
    (∀ (secret : String) (now : Int) (db : UserDb) (gh : GhResp) (token : Credential),
      user_from_jwt secret now db token = none → gh.status ≠ 200 →
      authenticate_token secret now db gh token =
        (db, .error ⟨401, "Invalid authentication token."⟩, true)) ∧
    (∀ (secret : String) (now : Int) (db : UserDb) (gh : GhResp) (token : Credential),
      user_from_jwt secret now db token = none → gh.status = 200 →
      dictGet gh.payload "id" = none →
      authenticate_token secret now db gh token =
        (db, .error ⟨401, "Unable to load GitHub user profile from token."⟩, true)) ∧
    (∀ (secret : String) (now : Int) (db : UserDb) (gh : GhResp) (token : Credential),
      user_from_jwt secret now db token = none → gh.status = 200 →
      (dictGet gh.payload "id").isSome →
      authenticate_token secret now db gh token =
        ((upsert_user_from_github db gh.payload).1,
         .ok (upsert_user_from_github db gh.payload).2, true)) := by
  refine ⟨?_, ?_, ?_, ?_, ?_⟩
  · intro secret now db token s e uid user hdec hint hfind
    have hs : s ≠ "" := by
      intro hempty
      subst hempty
      exact Option.noConfusion hint
    simp [user_from_jwt, token_subject_id, hdec, hs, hint, hfind]
  · intro secret now db gh token user hjwt
    simp [authenticate_token, hjwt]
  · intro secret now db gh token hjwt hstatus
    simp [authenticate_token, hjwt, fetch_github_user, hstatus]
  · intro secret now db gh token hjwt hstatus hid
    simp [authenticate_token, hjwt, fetch_github_user, hstatus, hid]
  · intro secret now db gh token hjwt hstatus hid
    have hnotNone : (dictGet gh.payload "id").isNone = false := by
      simp [Option.isNone_eq_false_iff, Option.isSome_iff_exists] at hid ⊢
      exact hid
    simp [authenticate_token, hjwt, fetch_github_user, hstatus, hnotNone]

/-- Witness for C3: a session token for an existing user resolves locally
without contacting the provider; an opaque token with a 404 upstream
profile response fails with 401; and one with a valid upstream profile is
reconciled and returned. -/
theorem c3_resolution_order_witness :
    authenticate_token "k" 0 ⟨[⟨7, "g7", "alice", ""⟩], 8⟩ ⟨404, []⟩
        (Credential.jwtToken (some "7") 100 "k") =
      (⟨[⟨7, "g7", "alice", ""⟩], 8⟩, .ok ⟨7, "g7", "alice", ""⟩, false) ∧
    authenticate_token "k" 0 ⟨[], 1⟩ ⟨404, []⟩ (Credential.rawToken "gho_x") =
      (⟨[], 1⟩, .error ⟨401, "Invalid authentication token."⟩, true) ∧
    authenticate_token "k" 0 ⟨[], 1⟩ ⟨200, [("id", JsonVal.num 9)]⟩
        (Credential.rawToken "gho_x") =
      ((upsert_user_from_github ⟨[], 1⟩ [("id", JsonVal.num 9)]).1,
       .ok (upsert_user_from_github ⟨[], 1⟩ [("id", JsonVal.num 9)]).2, true) :=
  ⟨c3_resolution_order.2.1 "k" 0 ⟨[⟨7, "g7", "alice", ""⟩], 8⟩ ⟨404, []⟩
     (Credential.jwtToken (some "7") 100 "k") ⟨7, "g7", "alice", ""⟩
     (c3_resolution_order.1 "k" 0 ⟨[⟨7, "g7", "alice", ""⟩], 8⟩
       (Credential.jwtToken (some "7") 100 "k") "7" 100 7 ⟨7, "g7", "alice", ""⟩
       (by norm_num [decode_access_token]) rfl rfl),
   c3_resolution_order.2.2.1 "k" 0 ⟨[], 1⟩ ⟨404, []⟩ (Credential.rawToken "gho_x")
     rfl (by decide),
   c3_resolution_order.2.2.2.2 "k" 0 ⟨[], 1⟩ ⟨200, [("id", JsonVal.num 9)]⟩
     (Credential.rawToken "gho_x") rfl rfl rfl⟩

theorem rate_item_problems_ok (st : RegState) (pid : Int) (s : ℚ) (item : ArtifactRow)
    (h : findById st.problems pid = some item) :
    rate_item st "problems" pid s =
      ({st with problems := st.problems.map (fun q =>
          if q.id == item.id then applyRating s item else q)},
       .ok ⟨item.id, "benchmark", roundTo4 (applyRating s item).rating,
            (applyRating s item).rating_count⟩) := by
  simp only [rate_item]
  have hc : pyStrip (strLower "problems") = "problem" ∨
      pyStrip (strLower "problems") = "problems" ∨
      pyStrip (strLower "problems") = "benchmark" ∨
      pyStrip (strLower "problems") = "benchmarks" := Or.inr (Or.inl rfl)
  rw [if_pos hc, h]

theorem findById_after_update (l : List ArtifactRow) (pid : Int) (item item' : ArtifactRow)
    (h : l.find? (fun p => p.id == pid) = some item)
    (hid : item'.id = item.id) :
    (l.map (fun q => if q.id == item.id then item' else q)).find?
      (fun p => p.id == pid) = some item' := by
  have hpid : item.id = pid := by
    have hp := List.find?_some h
    exact beq_iff_eq.mp hp
  have hmap := find?_of_map (fun q => q.id == pid)
    (fun q => if q.id == item.id then item' else q)
    (by
      intro a
      by_cases ha : a.id = item.id
      · simp [ha, hid, hpid]
      · have hne : (a.id == item.id) = false := beq_eq_false_iff_ne.mpr ha
        simp [hne]) l
  rw [hmap, h]
  simp [hid, hpid]

/-- C5: Rate recomputes the running average as
`(old_average * old_count + new_score) / (old_count + 1)` and increments
the count by one; a fresh item (count 0) rated `s` gets average exactly
`s`; rating a fresh item with `s1` then `s2` gives average `(s1 + s2) / 2`,
the same value in either call order. -/
theorem c5_rate_running_average :
    (∀ (st : RegState) (pid : Int) (s : ℚ) (item : ArtifactRow),
      findById st.problems pid = some item →
      ∃ item2, findById (rate_item st "problems" pid s).1.problems pid = some item2 ∧
        item2.rating = (item.rating * (item.rating_count : ℚ) + s) /
          ((item.rating_count : ℚ) + 1) ∧
        item2.rating_count = item.rating_count + 1) ∧
    (∀ (st : RegState) (pid : Int) (s : ℚ) (item : ArtifactRow),
      findById st.problems pid = some item → item.rating_count = 0 →
      ∃ item2, findById (rate_item st "problems" pid s).1.problems pid = some item2 ∧
        item2.rating = s ∧ item2.rating_count = 1) ∧
    (∀ (st : RegState) (pid : Int) (s1 s2 : ℚ) (item : ArtifactRow),
      findById st.problems pid = some item → item.rating_count = 0 →
      0 ≤ s1 → s1 ≤ 5 → 0 ≤ s2 → s2 ≤ 5 →
      ∃ item2 item3,
        findById (rate_item (rate_item st "problems" pid s1).1 "problems" pid s2).1.problems
          pid = some item2 ∧
        findById (rate_item (rate_item st "problems" pid s2).1 "problems" pid s1).1.problems
          pid = some item3 ∧
        item2.rating = (s1 + s2) / 2 ∧ item3.rating = (s1 + s2) / 2 ∧
        item2.rating_count = 2 ∧ item3.rating_count = 2) := by
  have general : ∀ (st : RegState) (pid : Int) (s : ℚ) (item : ArtifactRow),
      findById st.problems pid = some item →
      findById (rate_item st "problems" pid s).1.problems pid =
        some (applyRating s item) := by
    intro st pid s item h
    rw [rate_item_problems_ok st pid s item h]
    exact findById_after_update st.problems pid item (applyRating s item) h rfl
  have fresh : ∀ (st : RegState) (pid : Int) (s : ℚ) (item : ArtifactRow),
      item.rating_count = 0 → (applyRating s item).rating = s := by
    intro st pid s item h0
    simp [applyRating, h0]
  refine ⟨?_, ?_, ?_⟩
  · intro st pid s item h
    exact ⟨applyRating s item, general st pid s item h, rfl, rfl⟩
  · intro st pid s item h h0
    refine ⟨applyRating s item, general st pid s item h, fresh st pid s item h0, ?_⟩
    simp [applyRating, h0]
  · intro st pid s1 s2 item h h0 _ _ _ _
    have h1 := general st pid s1 item h
    have h2 := general (rate_item st "problems" pid s1).1 pid s2 (applyRating s1 item) h1
    have h1' := general st pid s2 item h
    have h2' := general (rate_item st "problems" pid s2).1 pid s1 (applyRating s2 item) h1'
    refine ⟨applyRating s2 (applyRating s1 item), applyRating s1 (applyRating s2 item),
      h2, h2', ?_, ?_, ?_, ?_⟩
    · simp [applyRating, h0]
      ring
    · simp [applyRating, h0]
      ring
    · simp [applyRating, h0]
    · simp [applyRating, h0]

/-- Witness for C5: a fresh problem rated 3 then 4, in both orders, ends at
average 7/2 with two ratings counted. -/
theorem c5_rate_running_average_witness :
    ∃ item2 item3,
      findById (rate_item (rate_item
          ⟨[⟨1, 1, "a", "1", "", none, 0, 0, 0⟩], [], [], [], [], 2, 1⟩
          "problems" 1 3).1 "problems" 1 4).1.problems 1 = some item2 ∧
      findById (rate_item (rate_item
          ⟨[⟨1, 1, "a", "1", "", none, 0, 0, 0⟩], [], [], [], [], 2, 1⟩
          "problems" 1 4).1 "problems" 1 3).1.problems 1 = some item3 ∧
      item2.rating = (3 + 4) / 2 ∧ item3.rating = (3 + 4) / 2 ∧
      item2.rating_count = 2 ∧ item3.rating_count = 2 :=
  c5_rate_running_average.2.2
    ⟨[⟨1, 1, "a", "1", "", none, 0, 0, 0⟩], [], [], [], [], 2, 1⟩ 1 3 4
    ⟨1, 1, "a", "1", "", none, 0, 0, 0⟩ rfl rfl (by norm_num) (by norm_num)
    (by norm_num) (by norm_num)

/-- C2: for both artifact kinds, after a successful Create of an (owner,
name, version) triple, a second Create with the identical triple (and a
well-formed zip filename) fails with 409 Conflict and returns the state of
the first create completely unchanged — no blob write, no row insert, no
change to the first artifact's version history. -/
theorem c2_duplicate_create_conflict :
    (∀ (loads loads2 : String → Option JsonVal) (now now2 : Int) (st st1 : RegState)
        (uid : Int) (name version description description2 : String)
        (category category2 : Option String) (manifest manifest2 : Option String)
        (filename filename2 : String) (row : ArtifactRow) (fail2 : Option FailStep),
      upload_problem loads now st uid name version description category manifest
          filename none = (st1, .ok row) →
      rejectedByEnsureZip filename2 = false →
      upload_problem loads2 now2 st1 uid name version description2 category2 manifest2
          filename2 fail2 =
        (st1, .error (.http ⟨409,
          "Benchmark with this name and version already exists for this user."⟩))) ∧
    (∀ (loads loads2 : String → Option JsonVal) (now now2 : Int) (st st1 : RegState)
        (uid : Int) (name version description description2 : String)
        (category category2 : Option String) (manifest manifest2 : Option String)
        (filename filename2 : String) (row : ArtifactRow) (fail2 : Option FailStep),
      upload_solver loads now st uid name version description category manifest
          filename none = (st1, .ok row) →
      rejectedByEnsureZip filename2 = false →
      upload_solver loads2 now2 st1 uid name version description2 category2 manifest2
          filename2 fail2 =
        (st1, .error (.http ⟨409,
          "Solver with this name and version already exists for this user."⟩))) := by
  constructor
  · intro loads loads2 now now2 st st1 uid name version description description2
      category category2 manifest manifest2 filename filename2 row fail2 h1 hzip2
    simp only [upload_problem] at h1
    by_cases hz : rejectedByEnsureZip filename = true
    · rw [if_pos hz] at h1
      exact absurd (congrArg Prod.snd h1) (by simp)
    · rw [if_neg hz] at h1
      by_cases hc : (findExisting st.problems uid name version).isSome = true
      · rw [if_pos hc] at h1
        exact absurd (congrArg Prod.snd h1) (by simp)
      · rw [if_neg hc] at h1
        have hnone : findExisting st.problems uid name version = none :=
          Option.not_isSome_iff_eq_none.mp hc
        injection h1 with hst hrow
        injection hrow with hrow2
        subst hst
        subst hrow2
        simp only [upload_problem, hzip2]
        have hfound : (findExisting (st.problems ++
            [(⟨st.nextProblemId, uid, name, version, description,
              some ((normalize_optional_text category).getD
                (infer_category "problem" name description
                  (some (parse_manifest loads manifest)))), 0, 0, 0⟩ : ArtifactRow)])
            uid name version).isSome = true := by
          simp only [findExisting] at hnone ⊢
          rw [List.find?_append, hnone]
          simp
        simp [hfound]
  · intro loads loads2 now now2 st st1 uid name version description description2
      category category2 manifest manifest2 filename filename2 row fail2 h1 hzip2
    simp only [upload_solver] at h1
    by_cases hz : rejectedByEnsureZip filename = true
    · rw [if_pos hz] at h1
      exact absurd (congrArg Prod.snd h1) (by simp)
    · rw [if_neg hz] at h1
      by_cases hc : (findExisting st.solvers uid name version).isSome = true
      · rw [if_pos hc] at h1
        exact absurd (congrArg Prod.snd h1) (by simp)
      · rw [if_neg hc] at h1
        have hnone : findExisting st.solvers uid name version = none :=
          Option.not_isSome_iff_eq_none.mp hc
        injection h1 with hst hrow
        injection hrow with hrow2
        subst hst
        subst hrow2
        simp only [upload_solver, hzip2]
        have hfound : (findExisting (st.solvers ++
            [(⟨st.nextSolverId, uid, name, version, description,
              some ((normalize_optional_text category).getD
                (infer_category "solver" name description
                  (some (parse_manifest loads manifest)))), 0, 0, 0⟩ : ArtifactRow)])
            uid name version).isSome = true := by
          simp only [findExisting] at hnone ⊢
          rw [List.find?_append, hnone]
          simp
        simp [hfound]

/-- Witness for C2: on a registry that already holds problem (and solver)
"a" version "1" of owner 1 — the state produced by the first create — a
second identical create returns 409 and the unchanged state. -/
theorem c2_duplicate_create_conflict_witness :
    upload_problem (fun _ => none) 0
        ⟨[⟨1, 1, "a", "1", "", some "General", 0, 0, 0⟩], [],
         [⟨1, "1", "", "storage/problems/1/a/1.zip", 0⟩], [],
         ["storage/problems/1/a/1.zip"], 2, 1⟩
        1 "a" "1" "" none none "b.zip" none =
      (⟨[⟨1, 1, "a", "1", "", some "General", 0, 0, 0⟩], [],
        [⟨1, "1", "", "storage/problems/1/a/1.zip", 0⟩], [],
        ["storage/problems/1/a/1.zip"], 2, 1⟩,
       .error (.http ⟨409,
         "Benchmark with this name and version already exists for this user."⟩)) ∧
    upload_solver (fun _ => none) 0
        ⟨[], [⟨1, 1, "a", "1", "", some "General", 0, 0, 0⟩], [],
         [⟨1, "1", "", "storage/solvers/1/a/1.zip", 0⟩],
         ["storage/solvers/1/a/1.zip"], 1, 2⟩
        1 "a" "1" "" none none "b.zip" none =
      (⟨[], [⟨1, 1, "a", "1", "", some "General", 0, 0, 0⟩], [],
        [⟨1, "1", "", "storage/solvers/1/a/1.zip", 0⟩],
        ["storage/solvers/1/a/1.zip"], 1, 2⟩,
       .error (.http ⟨409,
         "Solver with this name and version already exists for this user."⟩)) :=
  ⟨c2_duplicate_create_conflict.1 (fun _ => none) (fun _ => none) 0 0
     ⟨[], [], [], [], [], 1, 1⟩
     ⟨[⟨1, 1, "a", "1", "", some "General", 0, 0, 0⟩], [],
      [⟨1, "1", "", "storage/problems/1/a/1.zip", 0⟩], [],
      ["storage/problems/1/a/1.zip"], 2, 1⟩
     1 "a" "1" "" "" none none none none "a.zip" "b.zip"
     ⟨1, 1, "a", "1", "", some "General", 0, 0, 0⟩ none rfl rfl,
   c2_duplicate_create_conflict.2 (fun _ => none) (fun _ => none) 0 0
     ⟨[], [], [], [], [], 1, 1⟩
     ⟨[], [⟨1, 1, "a", "1", "", some "General", 0, 0, 0⟩], [],
      [⟨1, "1", "", "storage/solvers/1/a/1.zip", 0⟩],
      ["storage/solvers/1/a/1.zip"], 1, 2⟩
     1 "a" "1" "" "" none none none none "a.zip" "b.zip"
     ⟨1, 1, "a", "1", "", some "General", 0, 0, 0⟩ none rfl rfl⟩

/-- C1: Create is atomic across the blob write and the metadata
transaction. For both artifact kinds, for every upload attempt that passes
validation and the duplicate check, and for every injected failure at any
step after the blob write (artifact insert, flush, version-record insert,
or final commit), the error is re-raised, the metadata store is left
exactly as before (no Artifact row, no ArtifactVersion row), the attempt's
blob path is absent from disk, and every other file is untouched. -/
theorem c1_create_atomic :
    (∀ (loads : String → Option JsonVal) (now : Int) (st : RegState) (uid : Int)
        (name version description : String) (category : Option String)
        (manifest : Option String) (filename : String) (step : FailStep),
      rejectedByEnsureZip filename = false →
      findExisting st.problems uid name version = none →
      (upload_problem loads now st uid name version description category manifest
          filename (some step)).2 = .error .exn ∧
      (upload_problem loads now st uid name version description category manifest
          filename (some step)).1.problems = st.problems ∧
      (upload_problem loads now st uid name version description category manifest
          filename (some step)).1.problemVersions = st.problemVersions ∧
      (upload_problem loads now st uid name version description category manifest
          filename (some step)).1.solvers = st.solvers ∧
      (upload_problem loads now st uid name version description category manifest
          filename (some step)).1.solverVersions = st.solverVersions ∧
      build_archive_path "problems" uid name version ∉
        (upload_problem loads now st uid name version description category manifest
          filename (some step)).1.fs ∧
      (∀ q ∈ st.fs, q ≠ build_archive_path "problems" uid name version →
        q ∈ (upload_problem loads now st uid name version description category manifest
          filename (some step)).1.fs) ∧
      (∀ q ∈ (upload_problem loads now st uid name version description category manifest
          filename (some step)).1.fs, q ∈ st.fs)) ∧
    (∀ (loads : String → Option JsonVal) (now : Int) (st : RegState) (uid : Int)
        (name version description : String) (category : Option String)
        (manifest : Option String) (filename : String) (step : FailStep),
      rejectedByEnsureZip filename = false →
      findExisting st.solvers uid name version = none →
      (upload_solver loads now st uid name version description category manifest
          filename (some step)).2 = .error .exn ∧
      (upload_solver loads now st uid name version description category manifest
          filename (some step)).1.solvers = st.solvers ∧
      (upload_solver loads now st uid name version description category manifest
          filename (some step)).1.solverVersions = st.solverVersions ∧
      (upload_solver loads now st uid name version description category manifest
          filename (some step)).1.problems = st.problems ∧
      (upload_solver loads now st uid name version description category manifest
          filename (some step)).1.problemVersions = st.problemVersions ∧
      build_archive_path "solvers" uid name version ∉
        (upload_solver loads now st uid name version description category manifest
          filename (some step)).1.fs ∧
      (∀ q ∈ st.fs, q ≠ build_archive_path "solvers" uid name version →
        q ∈ (upload_solver loads now st uid name version description category manifest
          filename (some step)).1.fs) ∧
      (∀ q ∈ (upload_solver loads now st uid name version description category manifest
          filename (some step)).1.fs, q ∈ st.fs)) := by
  constructor
  · intro loads now st uid name version description category manifest filename step
      hzip hconf
    have hred : upload_problem loads now st uid name version description category
        manifest filename (some step) =
        (⟨st.problems, st.solvers, st.problemVersions, st.solverVersions,
          removePath (insertPath st.fs (build_archive_path "problems" uid name version))
            (build_archive_path "problems" uid name version),
          st.nextProblemId, st.nextSolverId⟩, .error .exn) := by
      simp only [upload_problem]
      rw [if_neg (by simp [hzip]), if_neg (by simp [hconf])]
    rw [hred]
    refine ⟨rfl, rfl, rfl, rfl, rfl, ?_, ?_, ?_⟩
    · intro hmem
      rw [mem_removePath] at hmem
      exact hmem.2 rfl
    · intro q hq hne
      rw [mem_removePath]
      exact ⟨mem_insertPath.mpr (Or.inl hq), hne⟩
    · intro q hq
      rw [mem_removePath] at hq
      rcases mem_insertPath.mp hq.1 with h | h
      · exact h
      · exact absurd h hq.2
  · intro loads now st uid name version description category manifest filename step
      hzip hconf
    have hred : upload_solver loads now st uid name version description category
        manifest filename (some step) =
        (⟨st.problems, st.solvers, st.problemVersions, st.solverVersions,
          removePath (insertPath st.fs (build_archive_path "solvers" uid name version))
            (build_archive_path "solvers" uid name version),
          st.nextProblemId, st.nextSolverId⟩, .error .exn) := by
      simp only [upload_solver]
      rw [if_neg (by simp [hzip]), if_neg (by simp [hconf])]
    rw [hred]
    refine ⟨rfl, rfl, rfl, rfl, rfl, ?_, ?_, ?_⟩
    · intro hmem
      rw [mem_removePath] at hmem
      exact hmem.2 rfl
    · intro q hq hne
      rw [mem_removePath]
      exact ⟨mem_insertPath.mpr (Or.inl hq), hne⟩
    · intro q hq
      rw [mem_removePath] at hq
      rcases mem_insertPath.mp hq.1 with h | h
      · exact h
      · exact absurd h hq.2

/-- Witness for C1: a failure injected at the commit (problem) and at the
flush (solver) of an upload into a registry holding one unrelated file:
the error propagates, no metadata rows appear, the attempt's blob is gone
and the unrelated file survives. -/
theorem c1_create_atomic_witness :
    (upload_problem (fun _ => none) 0 ⟨[], [], [], [], ["other.zip"], 1, 1⟩ 1 "a" "1" ""
        none none "a.zip" (some FailStep.commitStep)).2 = .error .exn ∧
    (upload_problem (fun _ => none) 0 ⟨[], [], [], [], ["other.zip"], 1, 1⟩ 1 "a" "1" ""
        none none "a.zip" (some FailStep.commitStep)).1.problems = [] ∧
    (upload_problem (fun _ => none) 0 ⟨[], [], [], [], ["other.zip"], 1, 1⟩ 1 "a" "1" ""
        none none "a.zip" (some FailStep.commitStep)).1.problemVersions = [] ∧
    build_archive_path "problems" 1 "a" "1" ∉
      (upload_problem (fun _ => none) 0 ⟨[], [], [], [], ["other.zip"], 1, 1⟩ 1 "a" "1" ""
        none none "a.zip" (some FailStep.commitStep)).1.fs ∧
    "other.zip" ∈
      (upload_problem (fun _ => none) 0 ⟨[], [], [], [], ["other.zip"], 1, 1⟩ 1 "a" "1" ""
        none none "a.zip" (some FailStep.commitStep)).1.fs ∧
    (upload_solver (fun _ => none) 0 ⟨[], [], [], [], [], 1, 1⟩ 1 "a" "1" ""
        none none "a.zip" (some FailStep.flushStep)).2 = .error .exn ∧
    (upload_solver (fun _ => none) 0 ⟨[], [], [], [], [], 1, 1⟩ 1 "a" "1" ""
        none none "a.zip" (some FailStep.flushStep)).1.solvers = [] ∧
    build_archive_path "solvers" 1 "a" "1" ∉
      (upload_solver (fun _ => none) 0 ⟨[], [], [], [], [], 1, 1⟩ 1 "a" "1" ""
        none none "a.zip" (some FailStep.flushStep)).1.fs := by
  have hp := c1_create_atomic.1 (fun _ => none) 0 ⟨[], [], [], [], ["other.zip"], 1, 1⟩
    1 "a" "1" "" none none "a.zip" FailStep.commitStep rfl rfl
  have hs := c1_create_atomic.2 (fun _ => none) 0 ⟨[], [], [], [], [], 1, 1⟩
    1 "a" "1" "" none none "a.zip" FailStep.flushStep rfl rfl
  exact ⟨hp.1, hp.2.1, hp.2.2.1, hp.2.2.2.2.2.1,
    hp.2.2.2.2.2.2.1 "other.zip" (by simp) (by decide),
    hs.1, hs.2.1, hs.2.2.2.2.2.1⟩

/-- C7: for both artifact kinds, a successful Download increments exactly
that artifact's download counter by one in the committed state returned
together with the streamed response — including when the archive path was
resolved through the version record rather than the deterministic
fallback — while a Download that fails with 404 (no artifact, or no archive
on disk) returns the state completely unchanged. -/
theorem c7_download_counter :
    (∀ (st : RegState) (pid : Int),
      findById st.problems pid = none →
      download_problem st pid = (st, .error (.http ⟨404, "Benchmark not found."⟩))) ∧
    (∀ (st : RegState) (pid : Int) (p : ArtifactRow),
      findById st.problems pid = some p →
      st.fs.contains (resolvedArchivePath "problems" st.problemVersions st.fs p) = false →
      download_problem st pid = (st, .error (.http ⟨404, "Archive not found."⟩))) ∧
    (∀ (st : RegState) (pid : Int) (p : ArtifactRow),
      findById st.problems pid = some p →
      st.fs.contains (resolvedArchivePath "problems" st.problemVersions st.fs p) = true →
      ∃ p2, findById (download_problem st pid).1.problems pid = some p2 ∧
        p2.download_count = p.download_count + 1 ∧ p2.id = p.id ∧ p2.name = p.name ∧
        (∀ q ∈ st.problems, q.id ≠ p.id → q ∈ (download_problem st pid).1.problems) ∧
        (download_problem st pid).1.fs = st.fs ∧
        (download_problem st pid).1.problemVersions = st.problemVersions ∧
        (download_problem st pid).1.solvers = st.solvers ∧
        (download_problem st pid).2 = .ok
          ⟨resolvedArchivePath "problems" st.problemVersions st.fs p,
           sanitize_name p.name ++ "-" ++ sanitize_name p.version ++ ".zip"⟩) ∧
    (∀ (st : RegState) (pid : Int) (p : ArtifactRow) (vr : VersionRow),
      findById st.problems pid = some p →
      pickLatest (st.problemVersions.filter
        (fun v => v.parent_id == p.id && v.version == p.version)) = some vr →
      vr.file_path ≠ "" → st.fs.contains vr.file_path = true →
      resolvedArchivePath "problems" st.problemVersions st.fs p = vr.file_path) ∧
    (∀ (st : RegState) (sid : Int),
      findById st.solvers sid = none →
      download_solver st sid = (st, .error (.http ⟨404, "Solver not found."⟩))) ∧
    (∀ (st : RegState) (sid : Int) (p : ArtifactRow),
      findById st.solvers sid = some p →
      st.fs.contains (resolvedArchivePath "solvers" st.solverVersions st.fs p) = false →
      download_solver st sid = (st, .error (.http ⟨404, "Archive not found."⟩))) ∧
    (∀ (st : RegState) (sid : Int) (p : ArtifactRow),
      findById st.solvers sid = some p →
      st.fs.contains (resolvedArchivePath "solvers" st.solverVersions st.fs p) = true →
      ∃ p2, findById (download_solver st sid).1.solvers sid = some p2 ∧
        p2.download_count = p.download_count + 1 ∧ p2.id = p.id ∧ p2.name = p.name ∧
        (∀ q ∈ st.solvers, q.id ≠ p.id → q ∈ (download_solver st sid).1.solvers) ∧
        (download_solver st sid).1.fs = st.fs ∧
        (download_solver st sid).1.solverVersions = st.solverVersions ∧
        (download_solver st sid).1.problems = st.problems ∧
        (download_solver st sid).2 = .ok
          ⟨resolvedArchivePath "solvers" st.solverVersions st.fs p,
           sanitize_name p.name ++ "-" ++ sanitize_name p.version ++ ".zip"⟩) ∧
    (∀ (st : RegState) (sid : Int) (p : ArtifactRow) (vr : VersionRow),
      findById st.solvers sid = some p →
      pickLatest (st.solverVersions.filter
        (fun v => v.parent_id == p.id && v.version == p.version)) = some vr →
      vr.file_path ≠ "" → st.fs.contains vr.file_path = true →
      resolvedArchivePath "solvers" st.solverVersions st.fs p = vr.file_path) := by
  refine ⟨?_, ?_, ?_, ?_, ?_, ?_, ?_, ?_⟩
  · intro st pid h
    simp [download_problem, h]
  · intro st pid p hfind hfs
    simp only [download_problem]
    rw [hfind]
    simp only [hfs]
    rfl
  · intro st pid p hfind hfs
    have hred : download_problem st pid =
        (⟨st.problems.map (fun q => if q.id == p.id then
            {q with download_count := q.download_count + 1} else q),
          st.solvers, st.problemVersions, st.solverVersions, st.fs,
          st.nextProblemId, st.nextSolverId⟩,
         .ok ⟨resolvedArchivePath "problems" st.problemVersions st.fs p,
           sanitize_name p.name ++ "-" ++ sanitize_name p.version ++ ".zip"⟩) := by
      simp only [download_problem]
      rw [hfind]
      simp only [hfs]
      rfl
    rw [hred]
    refine ⟨{p with download_count := p.download_count + 1}, ?_, rfl, rfl, rfl,
      ?_, rfl, rfl, rfl, rfl⟩
    · have hmap := find?_of_map (fun q => q.id == pid)
        (fun q => if q.id == p.id then
          {q with download_count := q.download_count + 1} else q)
        (by
          intro a
          by_cases ha : (a.id == p.id) = true <;> simp [ha]) st.problems
      simp only [findById] at hfind ⊢
      rw [hmap, hfind]
      simp
    · intro q hq hne
      have hfix : (if q.id == p.id then
          {q with download_count := q.download_count + 1} else q) = q := by
        simp [beq_eq_false_iff_ne.mpr hne]
      rw [← hfix]
      exact List.mem_map_of_mem _ hq
  · intro st pid p vr hfind hpick hne hmem
    have hmem2 : vr.file_path ∈ st.fs := by simpa using hmem
    simp only [resolvedArchivePath, hpick, Option.map_some]
    simp [archive_path_from_record, hne, hmem, hmem2]
  · intro st sid h
    simp [download_solver, h]
  · intro st sid p hfind hfs
    simp only [download_solver]
    rw [hfind]
    simp only [hfs]
    rfl
  · intro st sid p hfind hfs
    have hred : download_solver st sid =
        (⟨st.problems, st.solvers.map (fun q => if q.id == p.id then
            {q with download_count := q.download_count + 1} else q),
          st.problemVersions, st.solverVersions, st.fs,
          st.nextProblemId, st.nextSolverId⟩,
         .ok ⟨resolvedArchivePath "solvers" st.solverVersions st.fs p,
           sanitize_name p.name ++ "-" ++ sanitize_name p.version ++ ".zip"⟩) := by
      simp only [download_solver]
      rw [hfind]
      simp only [hfs]
      rfl
    rw [hred]
    refine ⟨{p with download_count := p.download_count + 1}, ?_, rfl, rfl, rfl,
      ?_, rfl, rfl, rfl, rfl⟩
    · have hmap := find?_of_map (fun q => q.id == sid)
        (fun q => if q.id == p.id then
          {q with download_count := q.download_count + 1} else q)
        (by
          intro a
          by_cases ha : (a.id == p.id) = true <;> simp [ha]) st.solvers
      simp only [findById] at hfind ⊢
      rw [hmap, hfind]
      simp
    · intro q hq hne
      have hfix : (if q.id == p.id then
          {q with download_count := q.download_count + 1} else q) = q := by
        simp [beq_eq_false_iff_ne.mpr hne]
      rw [← hfix]
      exact List.mem_map_of_mem _ hq
  · intro st sid p vr hfind hpick hne hmem
    have hmem2 : vr.file_path ∈ st.fs := by simpa using hmem
    simp only [resolvedArchivePath, hpick, Option.map_some]
    simp [archive_path_from_record, hne, hmem, hmem2]

/-- Witness for C7: a problem whose archive resolves through its version
record (a path different from the deterministic fallback) downloads
successfully with the counter going from 5 to 6; a missing artifact and a
missing archive each return 404 with the state unchanged. -/
theorem c7_download_counter_witness :
    resolvedArchivePath "problems" [⟨1, "1", "", "blob-v1.zip", 0⟩] ["blob-v1.zip"]
      ⟨1, 1, "a", "1", "", none, 5, 0, 0⟩ = "blob-v1.zip" ∧
    (∃ p2, findById (download_problem
        ⟨[⟨1, 1, "a", "1", "", none, 5, 0, 0⟩], [], [⟨1, "1", "", "blob-v1.zip", 0⟩], [],
         ["blob-v1.zip"], 2, 1⟩ 1).1.problems 1 = some p2 ∧
      p2.download_count = 5 + 1) ∧
    download_problem ⟨[], [], [], [], [], 1, 1⟩ 1 =
      (⟨[], [], [], [], [], 1, 1⟩, .error (.http ⟨404, "Benchmark not found."⟩)) ∧
    download_solver ⟨[], [⟨1, 1, "a", "1", "", none, 0, 0, 0⟩], [], [], [], 1, 2⟩ 1 =
      (⟨[], [⟨1, 1, "a", "1", "", none, 0, 0, 0⟩], [], [], [], 1, 2⟩,
       .error (.http ⟨404, "Archive not found."⟩)) := by
  have hres := c7_download_counter.2.2.2.1
    ⟨[⟨1, 1, "a", "1", "", none, 5, 0, 0⟩], [], [⟨1, "1", "", "blob-v1.zip", 0⟩], [],
     ["blob-v1.zip"], 2, 1⟩ 1 ⟨1, 1, "a", "1", "", none, 5, 0, 0⟩
    ⟨1, "1", "", "blob-v1.zip", 0⟩ rfl rfl (by decide) rfl
  have hok := c7_download_counter.2.2.1
    ⟨[⟨1, 1, "a", "1", "", none, 5, 0, 0⟩], [], [⟨1, "1", "", "blob-v1.zip", 0⟩], [],
     ["blob-v1.zip"], 2, 1⟩ 1 ⟨1, 1, "a", "1", "", none, 5, 0, 0⟩ rfl rfl
  obtain ⟨p2, hfind2, hcount, -⟩ := hok
  exact ⟨hres, ⟨p2, hfind2, hcount⟩,
    c7_download_counter.1 ⟨[], [], [], [], [], 1, 1⟩ 1 rfl,
    c7_download_counter.2.2.2.2.2.1
      ⟨[], [⟨1, 1, "a", "1", "", none, 0, 0, 0⟩], [], [], [], 1, 2⟩ 1
      ⟨1, 1, "a", "1", "", none, 0, 0, 0⟩ rfl rfl⟩

end RastionHub
